import Mathlib

/-!
Shallow embedding of the validation engine of the law-office management
application (modules `clientes`, `core`, `financeiro`, `documentos`,
`agenda`): tax-ID validation and normalization, phone normalization,
monetary bounds and cross-field form rules.  Strings are modelled as
`List Char`; Python `None` becomes `Option.none`; a Django
`ValidationError` with message `m` becomes `Verdict.rejected m` and the
returned cleaned value becomes `Verdict.accepted v`.  Database
uniqueness checks (the persistence collaborator) are outside the pure
validator and are not modelled.
-/

namespace GestorJuridico

/-- Outcome of a field cleaner: the cleaned value, or a rejection carrying
the Python `ValidationError` message. -/
inductive Verdict (α : Type) where
  | accepted (v : α)
  | rejected (reason : List Char)
deriving DecidableEq, Repr

/-- Whether a verdict is an acceptance. -/
def isAccepted {α : Type} : Verdict α → Bool
  | .accepted _ => true
  | .rejected _ => false

/-- `re.sub(r'\D', '', s)` / `''.join(filter(str.isdigit, s))`: keep only
the digit characters of `s`. -/
def stripDigits (s : List Char) : List Char :=
  s.filter Char.isDigit

/-- `int(c)` on a single digit character. -/
def digitVal (c : Char) : Nat :=
  c.toNat - 48

/-- The digit of `cpf` at index `i`, as a number (`int(cpf[i])`). -/
def dig (s : List Char) (i : Nat) : Nat :=
  digitVal (s.getD i ' ')

/-- `ClienteForm._validar_cpf` (clientes/forms.py:223-241): check-digit
validation for an 11-digit individual tax ID. -/
def validar_cpf (cpf : List Char) : Bool :=
  if cpf.length ≠ 11 then false
  else if cpf = List.replicate 11 cpf.headI then false
  else
    let soma1 := ∑ i in Finset.range 9, dig cpf i * (10 - i)
    let digito1 := if soma1 % 11 < 2 then 0 else 11 - soma1 % 11
    if dig cpf 9 ≠ digito1 then false
    else
      let soma2 := ∑ i in Finset.range 10, dig cpf i * (11 - i)
      let digito2 := if soma2 % 11 < 2 then 0 else 11 - soma2 % 11
      dig cpf 10 == digito2

/-- Weight vector `pesos1` of `_validar_cnpj`. -/
def pesos1 : List Nat := [5, 4, 3, 2, 9, 8, 7, 6, 5, 4, 3, 2]

/-- Weight vector `pesos2` of `_validar_cnpj`. -/
def pesos2 : List Nat := [6, 5, 4, 3, 2, 9, 8, 7, 6, 5, 4, 3, 2]

/-- `ClienteForm._validar_cnpj` (clientes/forms.py:243-263): check-digit
validation for a 14-digit organization tax ID. -/
def validar_cnpj (cnpj : List Char) : Bool :=
  if cnpj.length ≠ 14 then false
  else if cnpj = List.replicate 14 cnpj.headI then false
  else
    let soma1 := ∑ i in Finset.range 12, dig cnpj i * pesos1.getD i 0
    let digito1 := if soma1 % 11 < 2 then 0 else 11 - soma1 % 11
    if dig cnpj 12 ≠ digito1 then false
    else
      let soma2 := ∑ i in Finset.range 13, dig cnpj i * pesos2.getD i 0
      let digito2 := if soma2 % 11 < 2 then 0 else 11 - soma2 % 11
      dig cnpj 13 == digito2

/-- `ClienteForm.clean_cpf_cnpj` (clientes/forms.py:124-150), without the
database-uniqueness step that follows a successful validation.  A falsy
(empty) field is returned unchanged; otherwise the non-digits are
stripped and the result dispatched on its length. -/
def clean_cpf_cnpj (raw : List Char) : Verdict (List Char) :=
  if raw = [] then .accepted raw
  else
    let d := stripDigits raw
    if d.length = 11 then
      if validar_cpf d then .accepted d
      else .rejected ("CPF inválido.".toList)
    else if d.length = 14 then
      if validar_cnpj d then .accepted d
      else .rejected ("CNPJ inválido.".toList)
    else .rejected ("CPF deve ter 11 dígitos ou CNPJ deve ter 14 dígitos.".toList)

/-- `(dd) dddd-dddd` rendering of a 10-digit phone number. -/
def formatPhone10 (d : List Char) : List Char :=
  ['('] ++ d.take 2 ++ [')', ' '] ++ (d.drop 2).take 4 ++ ['-'] ++ d.drop 6

/-- `(dd) ddddd-dddd` rendering of an 11-digit phone number. -/
def formatPhone11 (d : List Char) : List Char :=
  ['('] ++ d.take 2 ++ [')', ' '] ++ (d.drop 2).take 5 ++ ['-'] ++ d.drop 7

/-- `ClienteForm.clean_telefone` (clientes/forms.py:169-188): rejects
fewer than 10 digits, formats 10 or 11 digits, rejects anything longer. -/
def clean_telefone_cliente (raw : List Char) : Verdict (List Char) :=
  if raw = [] then .accepted raw
  else
    let d := stripDigits raw
    if d.length < 10 then .rejected ("Telefone deve ter pelo menos 10 dígitos.".toList)
    else if d.length = 10 then .accepted (formatPhone10 d)
    else if d.length = 11 then .accepted (formatPhone11 d)
    else .rejected ("Telefone deve ter 10 ou 11 dígitos.".toList)

/-- `ConfiguracaoForm.clean_telefone` (core/forms.py:89-110): rejects
fewer than 10 digits, formats 10 or 11 digits, and for any longer digit
string falls into the `else` branch that returns the raw input
unchanged. -/
def clean_telefone_config (raw : List Char) : Verdict (List Char) :=
  if raw = [] then .accepted raw
  else
    let d := stripDigits raw
    if d.length < 10 then .rejected ("Telefone deve ter pelo menos 10 dígitos.".toList)
    else if d.length = 10 then .accepted (formatPhone10 d)
    else if d.length = 11 then .accepted (formatPhone11 d)
    else .accepted raw

/-- `PerfilUsuarioForm.clean_telefone` (core/forms.py:176-197): textually
identical to `ConfiguracaoForm.clean_telefone`. -/
def clean_telefone_perfil (raw : List Char) : Verdict (List Char) :=
  if raw = [] then .accepted raw
  else
    let d := stripDigits raw
    if d.length < 10 then .rejected ("Telefone deve ter pelo menos 10 dígitos.".toList)
    else if d.length = 10 then .accepted (formatPhone10 d)
    else if d.length = 11 then .accepted (formatPhone11 d)
    else .accepted raw

/-- `dd.ddd.ddd/dddd-dd` rendering of a 14-digit organization tax ID. -/
def formatCnpj (d : List Char) : List Char :=
  d.take 2 ++ ['.'] ++ (d.drop 2).take 3 ++ ['.'] ++ (d.drop 5).take 3 ++
    ['/'] ++ (d.drop 8).take 4 ++ ['-'] ++ d.drop 12

/-- `ConfiguracaoForm.clean_cnpj` (core/forms.py:68-87): length-14 check
and all-identical check (`len(set(x)) == 1`) only, then punctuated
formatting; no check-digit verification. -/
def clean_cnpj_config (raw : List Char) : Verdict (List Char) :=
  if raw = [] then .accepted raw
  else
    let d := stripDigits raw
    if d.length ≠ 14 then .rejected ("CNPJ deve ter 14 dígitos.".toList)
    else if d.dedup.length = 1 then .rejected ("CNPJ inválido.".toList)
    else .accepted (formatCnpj d)

/-- Hard-coded monetary upper bound `Decimal('999999999.99')`. -/
def maxValor : ℚ := 99999999999 / 100

/-- `FinanceiroForm.clean_valor` (financeiro/forms.py:108-116): rejects
`valor <= 0` and `valor > 999999999.99`. -/
def clean_valor (valor : Option ℚ) : Verdict (Option ℚ) :=
  match valor with
  | none => .accepted none
  | some v =>
    if v ≤ 0 then .rejected ("O valor deve ser maior que zero.".toList)
    else if v > maxValor then .rejected ("O valor é muito alto.".toList)
    else .accepted (some v)

/-- `OrcamentoForm.clean_valor_total` (financeiro/forms.py:347-355): same
bounds as `clean_valor`. -/
def clean_valor_total (valor : Option ℚ) : Verdict (Option ℚ) :=
  match valor with
  | none => .accepted none
  | some v =>
    if v ≤ 0 then .rejected ("O valor total deve ser maior que zero.".toList)
    else if v > maxValor then .rejected ("O valor total é muito alto.".toList)
    else .accepted (some v)

/-- A case (`Processo`) as the form-level rules see it: only its own
linked client matters; clients are identified abstractly. -/
structure Processo where
  cliente : Nat
deriving DecidableEq, Repr

/-- Status value `'pago'`. -/
def pago : List Char := "pago".toList

/-- The Python guard `processo and cliente and processo.cliente != cliente`:
true when both a case and a client are supplied and the case's own
client differs from the supplied one. -/
def linkMismatch (processo : Option Processo) (cliente : Option Nat) : Bool :=
  match processo, cliente with
  | some p, some c => p.cliente != c
  | _, _ => false

/-- `FinanceiroForm.clean` (financeiro/forms.py:149-178): the four
cross-field checks in source order — paid status requires a payment
date, a payment date requires paid status, a case or a client must be
linked, and when both are given the case's client must match. -/
def financeiro_clean (status : List Char) (data_pagamento : Option Nat)
    (processo : Option Processo) (cliente : Option Nat) : Verdict Unit :=
  if status = pago ∧ data_pagamento = none then
    .rejected ("Data de pagamento é obrigatória quando o status é Pago.".toList)
  else if data_pagamento ≠ none ∧ status ≠ pago then
    .rejected ("Status deve ser Pago quando a data de pagamento é informada.".toList)
  else if processo = none ∧ cliente = none then
    .rejected ("É necessário informar pelo menos um processo ou cliente para a movimentação.".toList)
  else if linkMismatch processo cliente then
    .rejected ("O cliente selecionado não corresponde ao cliente do processo.".toList)
  else .accepted ()

/-- `DocumentoForm.clean` (documentos/forms.py:155-174): a case or a
client must be linked, and when both are given the case's client must
match. -/
def documento_clean (processo : Option Processo) (cliente : Option Nat) :
    Verdict Unit :=
  if processo = none ∧ cliente = none then
    .rejected ("É necessário informar pelo menos um processo ou cliente para o documento.".toList)
  else if linkMismatch processo cliente then
    .rejected ("O cliente selecionado não corresponde ao cliente do processo.".toList)
  else .accepted ()

/-- `AgendaForm.clean` (agenda/forms.py:151-170): same two cross-field
checks as `DocumentoForm.clean`. -/
def agenda_clean (processo : Option Processo) (cliente : Option Nat) :
    Verdict Unit :=
  if processo = none ∧ cliente = none then
    .rejected ("É necessário informar pelo menos um processo ou cliente para o compromisso.".toList)
  else if linkMismatch processo cliente then
    .rejected ("O cliente selecionado não corresponde ao cliente do processo.".toList)
  else .accepted ()

/-! ### Helper lemmas -/

lemma raw_ne_nil_of_strip {raw : List Char} (h : stripDigits raw ≠ []) :
    raw ≠ [] := by
  intro hr
  subst hr
  exact h rfl

lemma strip_ne_nil_of_length {raw : List Char} {n : Nat} (hn : 0 < n)
    (h : (stripDigits raw).length = n) : stripDigits raw ≠ [] := by
  intro hnil
  rw [hnil] at h
  simp at h
  omega

lemma clean_cpf_cnpj_accept_11 (raw : List Char) (hne : raw ≠ [])
    (h11 : (stripDigits raw).length = 11)
    (hv : validar_cpf (stripDigits raw) = true) :
    clean_cpf_cnpj raw = Verdict.accepted (stripDigits raw) := by
  simp [clean_cpf_cnpj, hne, h11, hv]

lemma clean_cpf_cnpj_accept_14 (raw : List Char) (hne : raw ≠ [])
    (h14 : (stripDigits raw).length = 14)
    (hv : validar_cnpj (stripDigits raw) = true) :
    clean_cpf_cnpj raw = Verdict.accepted (stripDigits raw) := by
  simp [clean_cpf_cnpj, hne, h14, hv]

lemma clean_cpf_cnpj_accepted_inv {raw v : List Char} (hne : raw ≠ [])
    (h : clean_cpf_cnpj raw = Verdict.accepted v) :
    v = stripDigits raw ∧
      ((v.length = 11 ∧ validar_cpf v = true) ∨
       (v.length = 14 ∧ validar_cnpj v = true)) := by
  rw [clean_cpf_cnpj, if_neg hne] at h
  by_cases h11 : (stripDigits raw).length = 11
  · rw [if_pos h11] at h
    by_cases hv : validar_cpf (stripDigits raw) = true
    · rw [if_pos hv] at h
      cases h
      exact ⟨rfl, Or.inl ⟨h11, hv⟩⟩
    · rw [if_neg hv] at h
      exact absurd h (by simp)
  · rw [if_neg h11] at h
    by_cases h14 : (stripDigits raw).length = 14
    · rw [if_pos h14] at h
      by_cases hv : validar_cnpj (stripDigits raw) = true
      · rw [if_pos hv] at h
        cases h
        exact ⟨rfl, Or.inr ⟨h14, hv⟩⟩
      · rw [if_neg hv] at h
        exact absurd h (by simp)
    · rw [if_neg h14] at h
      exact absurd h (by simp)

lemma stripDigits_idem (s : List Char) :
    stripDigits (stripDigits s) = stripDigits s := by
  simp [stripDigits, List.filter_filter]

lemma validar_cpf_replicate (c : Char) :
    validar_cpf (List.replicate 11 c) = false := by
  rw [validar_cpf]
  rw [if_neg (by simp)]
  rw [if_pos (by rw [List.replicate_succ]; rfl)]

lemma validar_cnpj_replicate (c : Char) :
    validar_cnpj (List.replicate 14 c) = false := by
  rw [validar_cnpj]
  rw [if_neg (by simp)]
  rw [if_pos (by rw [List.replicate_succ]; rfl)]

lemma dedup_length_ne_one {l : List Char} {a b : Char}
    (ha : a ∈ l) (hb : b ∈ l) (hab : a ≠ b) : l.dedup.length ≠ 1 := by
  intro h
  obtain ⟨x, hx⟩ := List.length_eq_one.mp h
  have ha' : a ∈ l.dedup := List.mem_dedup.mpr ha
  have hb' : b ∈ l.dedup := List.mem_dedup.mpr hb
  rw [hx] at ha' hb'
  simp at ha' hb'
  exact hab (ha'.trans hb'.symm)

/-! ### C3 -/

/-- C3, counterexample: the claim says the empty string is rejected with
the wrong-length message, but `clean_cpf_cnpj` returns the empty field
unchanged (the `if cpf_cnpj:` guard is falsy), so no verdict other than
acceptance is produced. -/
theorem clean_cpf_cnpj_empty_passes :
    clean_cpf_cnpj [] = Verdict.accepted [] ∧
    clean_cpf_cnpj [] ≠ Verdict.rejected
      ("CPF deve ter 11 dígitos ou CNPJ deve ter 14 dígitos.".toList) := by
  constructor
  · rfl
  · intro h
    exact absurd h (by decide)

/-- C3, amended: every NONEMPTY input whose digit count after stripping
is neither 11 nor 14 is rejected with the wrong-length message; the
empty input is passed through unvalidated (Django's required-field check
handles it separately), and the function is total by construction. -/
theorem clean_cpf_cnpj_wrong_length (raw : List Char) (hne : raw ≠ [])
    (h11 : (stripDigits raw).length ≠ 11)
    (h14 : (stripDigits raw).length ≠ 14) :
    clean_cpf_cnpj raw = Verdict.rejected
      ("CPF deve ter 11 dígitos ou CNPJ deve ter 14 dígitos.".toList) := by
  simp [clean_cpf_cnpj, hne, h11, h14]

/-- C3, witness: the three-letter input has zero digits and is rejected
as wrong length. -/
theorem clean_cpf_cnpj_wrong_length_witness :
    clean_cpf_cnpj ['a', 'b', 'c'] = Verdict.rejected
      ("CPF deve ter 11 dígitos ou CNPJ deve ter 14 dígitos.".toList) :=
  clean_cpf_cnpj_wrong_length ['a', 'b', 'c'] (by decide) (by decide) (by decide)

/-! ### C5 -/

/-- C5, counterexample: the claim says every phone cleaner rejects digit
strings longer than 11, but the system-configuration cleaner returns the
12-digit input unchanged as its accepted value. -/
theorem clean_telefone_config_overlong_passes :
    isAccepted (clean_telefone_config "123456789012".toList) = true ∧
    clean_telefone_config "123456789012".toList =
      Verdict.accepted "123456789012".toList := by
  constructor <;> decide

/-- C5, amended: for inputs with more than 11 digits after stripping,
only the client-form cleaner rejects; the system-configuration and
user-profile cleaners fall into their final `else` branch and return the
raw input unchanged (neither truncated nor reformatted). -/
theorem clean_telefone_overlong (raw : List Char)
    (h : 11 < (stripDigits raw).length) :
    clean_telefone_cliente raw =
      Verdict.rejected ("Telefone deve ter 10 ou 11 dígitos.".toList) ∧
    clean_telefone_config raw = Verdict.accepted raw ∧
    clean_telefone_perfil raw = Verdict.accepted raw := by
  have hne : raw ≠ [] :=
    raw_ne_nil_of_strip (by intro hnil; rw [hnil] at h; simp at h)
  have h10 : ¬ (stripDigits raw).length < 10 := by omega
  have hne10 : (stripDigits raw).length ≠ 10 := by omega
  have hne11 : (stripDigits raw).length ≠ 11 := by omega
  refine ⟨?_, ?_, ?_⟩ <;>
    simp [clean_telefone_cliente, clean_telefone_config,
      clean_telefone_perfil, hne, h10, hne10, hne11]

/-- C5, witness: the amended statement at the concrete 12-digit input. -/
theorem clean_telefone_overlong_witness :
    clean_telefone_cliente "123456789012".toList =
      Verdict.rejected ("Telefone deve ter 10 ou 11 dígitos.".toList) ∧
    clean_telefone_config "123456789012".toList =
      Verdict.accepted "123456789012".toList ∧
    clean_telefone_perfil "123456789012".toList =
      Verdict.accepted "123456789012".toList :=
  clean_telefone_overlong "123456789012".toList (by decide)

/-! ### C6 -/

/-- C6, counterexample: the claim says the bound check is inclusive at
the lower end, so with minimum 0 the value 0 is accepted; the code
rejects `valor <= 0`, so 0 is rejected as too low. -/
theorem clean_valor_zero_rejected :
    clean_valor (some 0) =
      Verdict.rejected ("O valor deve ser maior que zero.".toList) ∧
    clean_valor (some 0) ≠ Verdict.accepted (some 0) := by
  constructor <;> decide

/-- C6, amended: the monetary check has a STRICT lower bound at 0 and an
inclusive upper bound at 999999999.99: a value is accepted exactly when
`0 < v ≤ 999999999.99`; `v ≤ 0` (including 0 itself) is rejected as too
low and `v > 999999999.99` as too high, in both `clean_valor` and
`clean_valor_total`. -/
theorem clean_valor_bounds (v : ℚ) :
    (clean_valor (some v) = Verdict.accepted (some v) ↔
      0 < v ∧ v ≤ maxValor) ∧
    (v ≤ 0 → clean_valor (some v) =
      Verdict.rejected ("O valor deve ser maior que zero.".toList)) ∧
    (maxValor < v → clean_valor (some v) =
      Verdict.rejected ("O valor é muito alto.".toList)) ∧
    (clean_valor_total (some v) = Verdict.accepted (some v) ↔
      0 < v ∧ v ≤ maxValor) ∧
    (v ≤ 0 → clean_valor_total (some v) =
      Verdict.rejected ("O valor total deve ser maior que zero.".toList)) ∧
    (maxValor < v → clean_valor_total (some v) =
      Verdict.rejected ("O valor total é muito alto.".toList)) := by
  have hmax : (0 : ℚ) < maxValor := by norm_num [maxValor]
  refine ⟨?_, ?_, ?_, ?_, ?_, ?_⟩
  · constructor
    · intro h
      simp only [clean_valor] at h
      split_ifs at h with a b
      exact ⟨not_le.mp a, not_lt.mp b⟩
    · rintro ⟨h0, hm⟩
      simp only [clean_valor]
      rw [if_neg (not_le.mpr h0), if_neg (not_lt.mpr hm)]
  · intro h1
    simp only [clean_valor]
    rw [if_pos h1]
  · intro h2
    simp only [clean_valor]
    rw [if_neg (not_le.mpr (lt_trans hmax h2)), if_pos h2]
  · constructor
    · intro h
      simp only [clean_valor_total] at h
      split_ifs at h with a b
      exact ⟨not_le.mp a, not_lt.mp b⟩
    · rintro ⟨h0, hm⟩
      simp only [clean_valor_total]
      rw [if_neg (not_le.mpr h0), if_neg (not_lt.mpr hm)]
  · intro h1
    simp only [clean_valor_total]
    rw [if_pos h1]
  · intro h2
    simp only [clean_valor_total]
    rw [if_neg (not_le.mpr (lt_trans hmax h2)), if_pos h2]

/-- C6, witness: the value 1 lies strictly inside the bounds and is
accepted; the value 0 is rejected as too low. -/
theorem clean_valor_bounds_witness :
    clean_valor (some 1) = Verdict.accepted (some 1) ∧
    clean_valor_total (some 0) =
      Verdict.rejected ("O valor total deve ser maior que zero.".toList) :=
  ⟨(clean_valor_bounds 1).1.mpr (by norm_num [maxValor]),
   (clean_valor_bounds 0).2.2.2.2.1 (by norm_num)⟩

/-! ### C2 -/

/-- C2, counterexample: the claim says an accepted tax ID is returned in
punctuated form, so `"11144477735"` would yield
`Accepted("111.444.777-35")`; the code returns the stripped digit string
itself. -/
theorem clean_cpf_cnpj_not_punctuated :
    clean_cpf_cnpj "11144477735".toList =
      Verdict.accepted "11144477735".toList ∧
    clean_cpf_cnpj "11144477735".toList ≠
      Verdict.accepted "111.444.777-35".toList := by
  constructor <;> decide

/-- C2, amended: whenever `clean_cpf_cnpj` accepts a nonempty input, the
value it returns is the stripped digit string itself (length 11 or 14,
passing the corresponding check-digit validation), not a punctuated
rendering; in particular `"11144477735"` yields
`Accepted("11144477735")`. -/
theorem clean_cpf_cnpj_accepted_value (raw v : List Char) (hne : raw ≠ [])
    (h : clean_cpf_cnpj raw = Verdict.accepted v) :
    v = stripDigits raw ∧
      ((v.length = 11 ∧ validar_cpf v = true) ∨
       (v.length = 14 ∧ validar_cnpj v = true)) :=
  clean_cpf_cnpj_accepted_inv hne h

/-- C2, witness: the amended statement at the concrete accepted input. -/
theorem clean_cpf_cnpj_accepted_value_witness :
    "11144477735".toList = stripDigits "11144477735".toList ∧
      (("11144477735".toList.length = 11 ∧
        validar_cpf "11144477735".toList = true) ∨
       ("11144477735".toList.length = 14 ∧
        validar_cnpj "11144477735".toList = true)) :=
  clean_cpf_cnpj_accepted_value "11144477735".toList "11144477735".toList
    (by decide) (by decide)

/-! ### C4 -/

/-- C4: an 11- or 14-digit string consisting of one repeated character
is rejected (with the respective invalid message), even though — as the
trailing conjuncts show for the all-zeros string — such a string can
satisfy both check-digit equations. -/
theorem clean_cpf_cnpj_trivial_sequence (raw : List Char) (c : Char) :
    (stripDigits raw = List.replicate 11 c →
      clean_cpf_cnpj raw = Verdict.rejected ("CPF inválido.".toList)) ∧
    (stripDigits raw = List.replicate 14 c →
      clean_cpf_cnpj raw = Verdict.rejected ("CNPJ inválido.".toList)) ∧
    dig (List.replicate 11 '0') 9 =
      (if (∑ i in Finset.range 9,
            dig (List.replicate 11 '0') i * (10 - i)) % 11 < 2 then 0
       else 11 - (∑ i in Finset.range 9,
            dig (List.replicate 11 '0') i * (10 - i)) % 11) ∧
    dig (List.replicate 11 '0') 10 =
      (if (∑ i in Finset.range 10,
            dig (List.replicate 11 '0') i * (11 - i)) % 11 < 2 then 0
       else 11 - (∑ i in Finset.range 10,
            dig (List.replicate 11 '0') i * (11 - i)) % 11) ∧
    validar_cpf (List.replicate 11 '0') = false := by
  refine ⟨?_, ?_, by decide, by decide, validar_cpf_replicate '0'⟩
  · intro h
    have hne : raw ≠ [] := raw_ne_nil_of_strip (by rw [h]; simp)
    have hlen : (stripDigits raw).length = 11 := by rw [h]; simp
    have hv : validar_cpf (stripDigits raw) = false := by
      rw [h]; exact validar_cpf_replicate c
    simp [clean_cpf_cnpj, hne, hlen, hv]
  · intro h
    have hne : raw ≠ [] := raw_ne_nil_of_strip (by rw [h]; simp)
    have hlen : (stripDigits raw).length = 14 := by rw [h]; simp
    have hv : validar_cnpj (stripDigits raw) = false := by
      rw [h]; exact validar_cnpj_replicate c
    simp [clean_cpf_cnpj, hne, hlen, hv]

/-- C4, witness: the repeated-digit strings `"11111111111"` and
`"00000000000000"` are rejected. -/
theorem clean_cpf_cnpj_trivial_sequence_witness :
    clean_cpf_cnpj "11111111111".toList =
      Verdict.rejected ("CPF inválido.".toList) ∧
    clean_cpf_cnpj "00000000000000".toList =
      Verdict.rejected ("CNPJ inválido.".toList) :=
  ⟨(clean_cpf_cnpj_trivial_sequence "11111111111".toList '1').1 (by decide),
   (clean_cpf_cnpj_trivial_sequence "00000000000000".toList '0').2.1 (by decide)⟩

/-! ### C9 -/

/-- C9: the system-configuration CNPJ cleaner performs no check-digit
verification: any input whose stripped digits have length 14 and contain
two distinct characters is accepted and returned in punctuated form; in
particular `"11222333000100"`, whose check digits are invalid under the
weighted-sum algorithm, is accepted. -/
theorem clean_cnpj_config_no_checksum (raw : List Char)
    (h14 : (stripDigits raw).length = 14) (a b : Char)
    (ha : a ∈ stripDigits raw) (hb : b ∈ stripDigits raw) (hab : a ≠ b) :
    clean_cnpj_config raw =
      Verdict.accepted (formatCnpj (stripDigits raw)) ∧
    clean_cnpj_config "11222333000100".toList =
      Verdict.accepted "11.222.333/0001-00".toList ∧
    validar_cnpj (stripDigits "11222333000100".toList) = false := by
  refine ⟨?_, by decide, by decide⟩
  have hne : raw ≠ [] :=
    raw_ne_nil_of_strip (strip_ne_nil_of_length (by norm_num) h14)
  have hd : (stripDigits raw).dedup.length ≠ 1 := dedup_length_ne_one ha hb hab
  simp [clean_cnpj_config, hne, h14, hd]

/-- C9, witness: the statement at the concrete invalid-checksum input. -/
theorem clean_cnpj_config_no_checksum_witness :
    clean_cnpj_config "11222333000100".toList =
      Verdict.accepted (formatCnpj (stripDigits "11222333000100".toList)) ∧
    clean_cnpj_config "11222333000100".toList =
      Verdict.accepted "11.222.333/0001-00".toList ∧
    validar_cnpj (stripDigits "11222333000100".toList) = false :=
  clean_cnpj_config_no_checksum "11222333000100".toList (by decide) '1' '2'
    (by decide) (by decide) (by decide)

/-! ### C10 -/

/-- C10: the financial-record form keeps paid status and payment date in
lockstep: an accepted submission has `status = 'pago'` exactly when a
payment date is present; a paid status without a date, or a date with a
non-paid status, is rejected with the respective message. -/
theorem financeiro_clean_pago_iff (status : List Char) (dp : Option Nat)
    (p : Option Processo) (c : Option Nat) :
    (financeiro_clean status dp p c = Verdict.accepted () →
      (status = pago ↔ dp ≠ none)) ∧
    (status = pago → dp = none →
      financeiro_clean status dp p c = Verdict.rejected
        ("Data de pagamento é obrigatória quando o status é Pago.".toList)) ∧
    (dp ≠ none → status ≠ pago →
      financeiro_clean status dp p c = Verdict.rejected
        ("Status deve ser Pago quando a data de pagamento é informada.".toList)) := by
  refine ⟨?_, ?_, ?_⟩
  · intro h
    rw [financeiro_clean] at h
    by_cases h1 : status = pago ∧ dp = none
    · rw [if_pos h1] at h
      exact absurd h (by simp)
    · constructor
      · intro hs hdp
        exact h1 ⟨hs, hdp⟩
      · intro hdp
        by_contra hs
        rw [if_neg h1, if_pos ⟨hdp, hs⟩] at h
        exact absurd h (by simp)
  · intro hs hdp
    rw [financeiro_clean, if_pos ⟨hs, hdp⟩]
  · intro hdp hs
    have h1 : ¬(status = pago ∧ dp = none) := fun hc => hs hc.1
    rw [financeiro_clean, if_neg h1, if_pos ⟨hdp, hs⟩]

/-- C10, witness: a paid record without a payment date is rejected, and
an accepted paid record with a date satisfies the equivalence. -/
theorem financeiro_clean_pago_iff_witness :
    financeiro_clean pago none none (some 5) = Verdict.rejected
      ("Data de pagamento é obrigatória quando o status é Pago.".toList) ∧
    (pago = pago ↔ (some 0 : Option Nat) ≠ none) :=
  ⟨(financeiro_clean_pago_iff pago none none (some 5)).2.1 rfl rfl,
   (financeiro_clean_pago_iff pago (some 0) none (some 5)).1 (by decide)⟩

/-! ### C1 -/

lemma validar_cpf_iff (d : List Char) (h11 : d.length = 11)
    (hrep : d ≠ List.replicate 11 d.headI) :
    validar_cpf d = true ↔
      (dig d 9 =
        (if (∑ i in Finset.range 9, dig d i * (10 - i)) % 11 < 2 then 0
         else 11 - (∑ i in Finset.range 9, dig d i * (10 - i)) % 11) ∧
       dig d 10 =
        (if (∑ i in Finset.range 10, dig d i * (11 - i)) % 11 < 2 then 0
         else 11 - (∑ i in Finset.range 10, dig d i * (11 - i)) % 11)) := by
  simp only [validar_cpf]
  rw [if_neg (by simp [h11])]
  rw [if_neg hrep]
  by_cases h9 : dig d 9 =
      (if (∑ i in Finset.range 9, dig d i * (10 - i)) % 11 < 2 then 0
       else 11 - (∑ i in Finset.range 9, dig d i * (10 - i)) % 11)
  · rw [if_neg (not_not_intro h9)]
    simp [h9]
  · rw [if_pos h9]
    simp [h9]

lemma validar_cnpj_iff (d : List Char) (h14 : d.length = 14)
    (hrep : d ≠ List.replicate 14 d.headI) :
    validar_cnpj d = true ↔
      (dig d 12 =
        (if (∑ i in Finset.range 12, dig d i * pesos1.getD i 0) % 11 < 2 then 0
         else 11 - (∑ i in Finset.range 12, dig d i * pesos1.getD i 0) % 11) ∧
       dig d 13 =
        (if (∑ i in Finset.range 13, dig d i * pesos2.getD i 0) % 11 < 2 then 0
         else 11 - (∑ i in Finset.range 13, dig d i * pesos2.getD i 0) % 11)) := by
  simp only [validar_cnpj]
  rw [if_neg (by simp [h14])]
  rw [if_neg hrep]
  by_cases h12 : dig d 12 =
      (if (∑ i in Finset.range 12, dig d i * pesos1.getD i 0) % 11 < 2 then 0
       else 11 - (∑ i in Finset.range 12, dig d i * pesos1.getD i 0) % 11)
  · rw [if_neg (not_not_intro h12)]
    simp [h12]
  · rw [if_pos h12]
    constructor
    · intro hfalse
      exact absurd hfalse (by simp)
    · intro hc
      exact absurd hc.1 h12

/-- C1: for an input whose stripped digits form an 11-character string
that is not a single repeated digit (i.e. not equal to eleven copies of
its own first character), `clean_cpf_cnpj` accepts exactly when digit 10
equals the modulo-11 check digit over `d[0..8]` with weights `10-i` and
digit 11 equals the one over `d[0..9]` with weights `11-i`; for 14
digits, the same with the fixed weight vectors `pesos1` over `d[0..11]`
against `d[12]` and `pesos2` over `d[0..12]` against `d[13]`.  The
digits of `"11144477735"` and `"11222333000181"` are accepted. -/
theorem clean_cpf_cnpj_check_digits (raw : List Char) :
    ((stripDigits raw).length = 11 →
      stripDigits raw ≠ List.replicate 11 (stripDigits raw).headI →
      (isAccepted (clean_cpf_cnpj raw) = true ↔
        (dig (stripDigits raw) 9 =
          (if (∑ i in Finset.range 9,
                dig (stripDigits raw) i * (10 - i)) % 11 < 2 then 0
           else 11 - (∑ i in Finset.range 9,
                dig (stripDigits raw) i * (10 - i)) % 11) ∧
         dig (stripDigits raw) 10 =
          (if (∑ i in Finset.range 10,
                dig (stripDigits raw) i * (11 - i)) % 11 < 2 then 0
           else 11 - (∑ i in Finset.range 10,
                dig (stripDigits raw) i * (11 - i)) % 11)))) ∧
    ((stripDigits raw).length = 14 →
      stripDigits raw ≠ List.replicate 14 (stripDigits raw).headI →
      (isAccepted (clean_cpf_cnpj raw) = true ↔
        (dig (stripDigits raw) 12 =
          (if (∑ i in Finset.range 12,
                dig (stripDigits raw) i * pesos1.getD i 0) % 11 < 2 then 0
           else 11 - (∑ i in Finset.range 12,
                dig (stripDigits raw) i * pesos1.getD i 0) % 11) ∧
         dig (stripDigits raw) 13 =
          (if (∑ i in Finset.range 13,
                dig (stripDigits raw) i * pesos2.getD i 0) % 11 < 2 then 0
           else 11 - (∑ i in Finset.range 13,
                dig (stripDigits raw) i * pesos2.getD i 0) % 11)))) ∧
    clean_cpf_cnpj "11144477735".toList =
      Verdict.accepted "11144477735".toList ∧
    clean_cpf_cnpj "11222333000181".toList =
      Verdict.accepted "11222333000181".toList := by
  refine ⟨?_, ?_, by decide, by decide⟩
  · intro h11 hrep
    have hne : raw ≠ [] :=
      raw_ne_nil_of_strip (strip_ne_nil_of_length (by norm_num) h11)
    have e : clean_cpf_cnpj raw =
        if validar_cpf (stripDigits raw) then
          Verdict.accepted (stripDigits raw)
        else Verdict.rejected ("CPF inválido.".toList) := by
      simp [clean_cpf_cnpj, hne, h11]
    rw [e, ← validar_cpf_iff (stripDigits raw) h11 hrep]
    by_cases hv : validar_cpf (stripDigits raw) = true
    · simp [hv, isAccepted]
    · simp [hv, isAccepted]
  · intro h14 hrep
    have hne : raw ≠ [] :=
      raw_ne_nil_of_strip (strip_ne_nil_of_length (by norm_num) h14)
    have e : clean_cpf_cnpj raw =
        if validar_cnpj (stripDigits raw) then
          Verdict.accepted (stripDigits raw)
        else Verdict.rejected ("CNPJ inválido.".toList) := by
      simp [clean_cpf_cnpj, hne, h14]
    rw [e, ← validar_cnpj_iff (stripDigits raw) h14 hrep]
    by_cases hv : validar_cnpj (stripDigits raw) = true
    · simp [hv, isAccepted]
    · simp [hv, isAccepted]

/-- C1, witness: the characterization applied to the valid individual
tax ID `"11144477735"`. -/
theorem clean_cpf_cnpj_check_digits_witness :
    isAccepted (clean_cpf_cnpj "11144477735".toList) = true ↔
      (dig (stripDigits "11144477735".toList) 9 =
        (if (∑ i in Finset.range 9,
              dig (stripDigits "11144477735".toList) i * (10 - i)) % 11 < 2
         then 0
         else 11 - (∑ i in Finset.range 9,
              dig (stripDigits "11144477735".toList) i * (10 - i)) % 11) ∧
       dig (stripDigits "11144477735".toList) 10 =
        (if (∑ i in Finset.range 10,
              dig (stripDigits "11144477735".toList) i * (11 - i)) % 11 < 2
         then 0
         else 11 - (∑ i in Finset.range 10,
              dig (stripDigits "11144477735".toList) i * (11 - i)) % 11)) :=
  (clean_cpf_cnpj_check_digits "11144477735".toList).1 (by decide) (by decide)

/-! ### C7 -/

/-- C7: in each of the financial-record, document and appointment forms,
when both a case and a client are supplied the submission is accepted
only if the case's own client equals the supplied client, and a
differing pair is rejected (in the document and appointment forms with
the inconsistent-link message; the financial form may also reject the
same submission earlier for a status/payment-date violation, so there
only non-acceptance is stated). -/
theorem forms_consistent_link (status : List Char) (dp : Option Nat)
    (p : Processo) (c : Nat) :
    (financeiro_clean status dp (some p) (some c) = Verdict.accepted () →
      p.cliente = c) ∧
    (p.cliente ≠ c →
      isAccepted (financeiro_clean status dp (some p) (some c)) = false) ∧
    (documento_clean (some p) (some c) = Verdict.accepted () →
      p.cliente = c) ∧
    (p.cliente ≠ c → documento_clean (some p) (some c) = Verdict.rejected
      ("O cliente selecionado não corresponde ao cliente do processo.".toList)) ∧
    (agenda_clean (some p) (some c) = Verdict.accepted () → p.cliente = c) ∧
    (p.cliente ≠ c → agenda_clean (some p) (some c) = Verdict.rejected
      ("O cliente selecionado não corresponde ao cliente do processo.".toList)) := by
  by_cases h4 : p.cliente = c
  · exact ⟨fun _ => h4, fun hc => absurd h4 hc, fun _ => h4,
      fun hc => absurd h4 hc, fun _ => h4, fun hc => absurd h4 hc⟩
  · have hl : linkMismatch (some p) (some c) = true := by
      simp [linkMismatch, h4]
    have hnb : ¬(some p = none ∧ (some c : Option Nat) = none) := by simp
    have fin_false :
        isAccepted (financeiro_clean status dp (some p) (some c)) = false := by
      rw [financeiro_clean]
      by_cases a : status = pago ∧ dp = none
      · rw [if_pos a]
        rfl
      · rw [if_neg a]
        by_cases b : dp ≠ none ∧ status ≠ pago
        · rw [if_pos b]
          rfl
        · rw [if_neg b, if_neg hnb, if_pos hl]
          rfl
    refine ⟨?_, fun _ => fin_false, ?_, ?_, ?_, ?_⟩
    · intro h
      rw [h] at fin_false
      exact absurd fin_false (by simp [isAccepted])
    · intro h
      rw [documento_clean, if_neg hnb, if_pos hl] at h
      exact absurd h (by simp)
    · intro _
      rw [documento_clean, if_neg hnb, if_pos hl]
    · intro h
      rw [agenda_clean, if_neg hnb, if_pos hl] at h
      exact absurd h (by simp)
    · intro _
      rw [agenda_clean, if_neg hnb, if_pos hl]

/-- C7, witness: a mismatched case/client pair is rejected by the
document form and not accepted by the financial form, and an accepted
matched pair has equal clients. -/
theorem forms_consistent_link_witness :
    isAccepted (financeiro_clean pago (some 0) (some ⟨1⟩) (some 2)) = false ∧
    documento_clean (some ⟨1⟩) (some 2) = Verdict.rejected
      ("O cliente selecionado não corresponde ao cliente do processo.".toList) ∧
    Processo.cliente ⟨3⟩ = 3 :=
  ⟨(forms_consistent_link pago (some 0) ⟨1⟩ 2).2.1 (by decide),
   (forms_consistent_link pago (some 0) ⟨1⟩ 2).2.2.2.1 (by decide),
   (forms_consistent_link pago (some 0) ⟨3⟩ 3).2.2.1 (by decide)⟩

/-! ### C8 -/

/-- C8: tax-ID validation is idempotent: if `clean_cpf_cnpj raw` returns
`Accepted v`, then `clean_cpf_cnpj v` also returns `Accepted v`. -/
theorem clean_cpf_cnpj_idem (raw v : List Char)
    (h : clean_cpf_cnpj raw = Verdict.accepted v) :
    clean_cpf_cnpj v = Verdict.accepted v := by
  by_cases hne : raw = []
  · subst hne
    rw [clean_cpf_cnpj, if_pos rfl] at h
    cases h
    rfl
  · obtain ⟨hv, hcase⟩ := clean_cpf_cnpj_accepted_inv hne h
    subst hv
    have hsv : stripDigits (stripDigits raw) = stripDigits raw :=
      stripDigits_idem raw
    rcases hcase with ⟨hlen, hval⟩ | ⟨hlen, hval⟩
    · have hne2 : stripDigits raw ≠ [] :=
        strip_ne_nil_of_length (by norm_num) hlen
      have hres := clean_cpf_cnpj_accept_11 (stripDigits raw) hne2
        (by rw [hsv]; exact hlen) (by rw [hsv]; exact hval)
      rwa [hsv] at hres
    · have hne2 : stripDigits raw ≠ [] :=
        strip_ne_nil_of_length (by norm_num) hlen
      have hres := clean_cpf_cnpj_accept_14 (stripDigits raw) hne2
        (by rw [hsv]; exact hlen) (by rw [hsv]; exact hval)
      rwa [hsv] at hres

/-- C8, witness: re-validating the accepted output of `"11144477735"`
yields the same accepted value. -/
theorem clean_cpf_cnpj_idem_witness :
    clean_cpf_cnpj "11144477735".toList =
      Verdict.accepted "11144477735".toList :=
  clean_cpf_cnpj_idem "11144477735".toList "11144477735".toList (by decide)

end GestorJuridico
